import Mathlib

/-!
Verification of the long-running-operation polling engine of the devic-cli
repository: a shallow embedding of pollChat and pollThread (src/polling.ts),
the error types (src/errors.ts) and the status-line rendering (src/output.ts),
together with theorems about classification, backoff, termination,
change-detection and error propagation.
-/

namespace DevicCli

/-- PollOptions (src/types.ts). Millisecond quantities and the backoff
multiplier are JS numbers; modelled as rationals. -/
structure PollOptions where
  initialIntervalMs : ℚ
  backoffMultiplier : ℚ
  maxIntervalMs : ℚ
  timeoutMs : ℚ
deriving DecidableEq

/-- DevicApiError (src/errors.ts): the typed transport error raised by the
HTTP layer on a non-2xx response; the poller never constructs one. -/
structure DevicApiError where
  statusCode : ℕ
  message : String
  errorType : Option String
deriving DecidableEq

/-- DevicCliError (src/errors.ts): message, machine-readable code, exit code. -/
structure DevicCliError where
  message : String
  code : String
  exitCode : ℕ
deriving DecidableEq

/-- RealtimeChatHistory (src/types.ts): the chat snapshot returned by
getRealtimeHistory. The poller reads only status; the other fields here keep
the snapshot's identity (chatHistory content is opaque to the driver). The
status is a plain string at runtime (deserialized JSON, unchecked). -/
structure RealtimeChatHistory where
  chatUID : String
  clientUID : String
  status : String
  lastUpdatedAt : ℚ
deriving DecidableEq

/-- AgentTaskDto (src/types.ts). -/
structure AgentTaskDto where
  title : Option String
  completed : Bool
deriving DecidableEq

/-- AgentThreadDto (src/types.ts): the thread snapshot returned by getThread.
The poller reads state and tasks; agentId keeps identity. The state is a
plain string at runtime (deserialized JSON, unchecked). -/
structure AgentThreadDto where
  agentId : String
  state : String
  tasks : Option (List AgentTaskDto)
deriving DecidableEq

/-- A sample chat snapshot with a given status, for concrete runs. -/
def chatSnap (s : String) : RealtimeChatHistory :=
  ⟨"c1", "u1", s, 0⟩

/-- A sample thread snapshot with a given state and task list. -/
def threadSnap (s : String) (ts : Option (List AgentTaskDto)) : AgentThreadDto :=
  ⟨"a1", s, ts⟩

/-- CHAT_TERMINAL (src/polling.ts). -/
def CHAT_TERMINAL : List String := ["completed", "error"]

/-- THREAD_TERMINAL (src/polling.ts), written with the AgentThreadState
enum's string values COMPLETED, FAILED, TERMINATED (src/types.ts). -/
def THREAD_TERMINAL : List String := ["completed", "failed", "terminated"]

/-- CHAT_POLL_DEFAULTS (src/polling.ts). -/
def CHAT_POLL_DEFAULTS : PollOptions :=
  { initialIntervalMs := 1000
    backoffMultiplier := 1.5
    maxIntervalMs := 10000
    timeoutMs := 5 * 60 * 1000 }

/-- THREAD_POLL_DEFAULTS (src/polling.ts). -/
def THREAD_POLL_DEFAULTS : PollOptions :=
  { initialIntervalMs := 2000
    backoffMultiplier := 1.5
    maxIntervalMs := 15000
    timeoutMs := 10 * 60 * 1000 }

/-- A configuration whose wall-clock budget is zero. -/
def zeroTimeout (o : PollOptions) : PollOptions :=
  { o with timeoutMs := 0 }

/-- The error thrown when pollChat times out (src/polling.ts). -/
def chatTimeoutError : DevicCliError :=
  { message := "Polling timed out waiting for chat completion"
    code := "POLL_TIMEOUT"
    exitCode := 3 }

/-- The error thrown when pollThread times out (src/polling.ts). -/
def threadTimeoutError : DevicCliError :=
  { message := "Polling timed out waiting for thread completion"
    code := "POLL_TIMEOUT"
    exitCode := 3 }

/-- Result of one invocation of the fetch collaborator for a chat poll:
either a snapshot or a thrown DevicApiError. -/
inductive ChatFetch
  | ok (r : RealtimeChatHistory)
  | err (e : DevicApiError)
deriving DecidableEq

/-- Result of one invocation of the fetch collaborator for a thread poll. -/
inductive ThreadFetch
  | ok (r : AgentThreadDto)
  | err (e : DevicApiError)
deriving DecidableEq

/-- Observable step of a pollChat run: a fetch invocation (with its result),
a statusLine emission of kind chat_status, or a sleep. -/
inductive ChatEvent
  | fetched (f : ChatFetch)
  | notified (chatUid status : String)
  | slept (ms : ℚ)
deriving DecidableEq

/-- Observable step of a pollThread run; a statusLine emission of kind
thread_status carries the mapped task list (title, completed). -/
inductive ThreadEvent
  | fetched (f : ThreadFetch)
  | notified (threadId state : String) (tasks : Option (List (Option String × Bool)))
  | slept (ms : ℚ)
deriving DecidableEq

/-- How a pollChat run ends: the returned snapshot, a propagated fetch error,
the thrown timeout error, or (model only) exhaustion of the scripted fetches. -/
inductive ChatOutcome
  | resolved (r : RealtimeChatHistory)
  | fetchFailure (e : DevicApiError)
  | timedOut (e : DevicCliError)
  | noMoreFetches
deriving DecidableEq

/-- How a pollThread run ends. -/
inductive ThreadOutcome
  | resolved (r : AgentThreadDto)
  | fetchFailure (e : DevicApiError)
  | timedOut (e : DevicCliError)
  | noMoreFetches
deriving DecidableEq

/-- The while-loop of pollChat (src/polling.ts). Time is explicit: now is the
current Date.now value, each scripted fetch carries the time it consumes, and
a sleep advances the clock by the slept interval. An exhausted script yields
the model-only noMoreFetches outcome. The deadline guard is checked before
each fetch, exactly as in the source; it is written once per script shape so
that the recursion is structural. -/
def pollChatLoop (o : PollOptions) (chatUid : String) (deadline : ℚ) :
    List (ℚ × ChatFetch) → ℚ → String → ℚ → List ChatEvent × ChatOutcome
  | [], _, _, now =>
      if now < deadline then ([], ChatOutcome.noMoreFetches)
      else ([], ChatOutcome.timedOut chatTimeoutError)
  | (d, f) :: rest, interval, lastStatus, now =>
      if now < deadline then
        match f with
        | ChatFetch.err e =>
            ([ChatEvent.fetched (ChatFetch.err e)], ChatOutcome.fetchFailure e)
        | ChatFetch.ok r =>
            let notifEvts :=
              if r.status = lastStatus then [] else [ChatEvent.notified chatUid r.status]
            let lastStatus' := if r.status = lastStatus then lastStatus else r.status
            if CHAT_TERMINAL.contains r.status then
              (ChatEvent.fetched (ChatFetch.ok r) :: notifEvts, ChatOutcome.resolved r)
            else if r.status = "waiting_for_tool_response" then
              (ChatEvent.fetched (ChatFetch.ok r) :: notifEvts, ChatOutcome.resolved r)
            else
              let next := pollChatLoop o chatUid deadline rest
                (min (interval * o.backoffMultiplier) o.maxIntervalMs) lastStatus'
                (now + d + interval)
              (ChatEvent.fetched (ChatFetch.ok r) :: notifEvts
                 ++ ChatEvent.slept interval :: next.1,
               next.2)
      else ([], ChatOutcome.timedOut chatTimeoutError)

/-- pollChat (src/polling.ts): interval starts at initialIntervalMs, deadline
is Date.now() + timeoutMs computed at entry, lastStatus starts as "". -/
def pollChat (o : PollOptions) (chatUid : String) (startNow : ℚ)
    (script : List (ℚ × ChatFetch)) : List ChatEvent × ChatOutcome :=
  pollChatLoop o chatUid (startNow + o.timeoutMs) script o.initialIntervalMs "" startNow

/-- The while-loop of pollThread (src/polling.ts); same shape as the chat
loop, with the thread terminal set, the paused_for_approval early return, and
the statusLine payload carrying the mapped tasks (title, completed). -/
def pollThreadLoop (o : PollOptions) (threadId : String) (deadline : ℚ) :
    List (ℚ × ThreadFetch) → ℚ → String → ℚ → List ThreadEvent × ThreadOutcome
  | [], _, _, now =>
      if now < deadline then ([], ThreadOutcome.noMoreFetches)
      else ([], ThreadOutcome.timedOut threadTimeoutError)
  | (d, f) :: rest, interval, lastState, now =>
      if now < deadline then
        match f with
        | ThreadFetch.err e =>
            ([ThreadEvent.fetched (ThreadFetch.err e)], ThreadOutcome.fetchFailure e)
        | ThreadFetch.ok r =>
            let notifEvts :=
              if r.state = lastState then []
              else [ThreadEvent.notified threadId r.state
                      (r.tasks.map (fun ts => ts.map (fun t => (t.title, t.completed))))]
            let lastState' := if r.state = lastState then lastState else r.state
            if THREAD_TERMINAL.contains r.state then
              (ThreadEvent.fetched (ThreadFetch.ok r) :: notifEvts, ThreadOutcome.resolved r)
            else if r.state = "paused_for_approval" then
              (ThreadEvent.fetched (ThreadFetch.ok r) :: notifEvts, ThreadOutcome.resolved r)
            else
              let next := pollThreadLoop o threadId deadline rest
                (min (interval * o.backoffMultiplier) o.maxIntervalMs) lastState'
                (now + d + interval)
              (ThreadEvent.fetched (ThreadFetch.ok r) :: notifEvts
                 ++ ThreadEvent.slept interval :: next.1,
               next.2)
      else ([], ThreadOutcome.timedOut threadTimeoutError)

/-- pollThread (src/polling.ts): interval starts at initialIntervalMs,
deadline is Date.now() + timeoutMs computed at entry, lastState starts as "". -/
def pollThread (o : PollOptions) (threadId : String) (startNow : ℚ)
    (script : List (ℚ × ThreadFetch)) : List ThreadEvent × ThreadOutcome :=
  pollThreadLoop o threadId (startNow + o.timeoutMs) script o.initialIntervalMs "" startNow

/-- Sleep durations of a chat run, in order. -/
def chatSleeps (evts : List ChatEvent) : List ℚ :=
  evts.filterMap fun e => match e with | ChatEvent.slept d => some d | _ => none

/-- Notified statuses of a chat run, in order. -/
def chatNotifs (evts : List ChatEvent) : List String :=
  evts.filterMap fun e => match e with | ChatEvent.notified _ s => some s | _ => none

/-- Statuses of the snapshots observed (successfully fetched) in a chat run. -/
def chatObserved (evts : List ChatEvent) : List String :=
  evts.filterMap fun e =>
    match e with | ChatEvent.fetched (ChatFetch.ok r) => some r.status | _ => none

/-- Number of fetch invocations (successful or failed) in a chat run. -/
def chatFetchCount (evts : List ChatEvent) : ℕ :=
  (evts.filterMap fun e => match e with | ChatEvent.fetched f => some f | _ => none).length

/-- Sleep durations of a thread run, in order. -/
def threadSleeps (evts : List ThreadEvent) : List ℚ :=
  evts.filterMap fun e => match e with | ThreadEvent.slept d => some d | _ => none

/-- Notified states of a thread run, in order. -/
def threadNotifs (evts : List ThreadEvent) : List String :=
  evts.filterMap fun e => match e with | ThreadEvent.notified _ s _ => some s | _ => none

/-- States of the snapshots observed (successfully fetched) in a thread run. -/
def threadObserved (evts : List ThreadEvent) : List String :=
  evts.filterMap fun e =>
    match e with | ThreadEvent.fetched (ThreadFetch.ok r) => some r.state | _ => none

/-- Number of fetch invocations (successful or failed) in a thread run. -/
def threadFetchCount (evts : List ThreadEvent) : ℕ :=
  (evts.filterMap fun e => match e with | ThreadEvent.fetched f => some f | _ => none).length

/-- Classification tier of an observed status. -/
inductive Tier
  | Terminal
  | EarlyReturn
  | Continue
deriving DecidableEq

/-- Classification of a chat status, read off the branch structure of
pollChat: the CHAT_TERMINAL membership test, then the
waiting_for_tool_response early return, else keep polling. -/
def chatClassify (status : String) : Tier :=
  if CHAT_TERMINAL.contains status then Tier.Terminal
  else if status = "waiting_for_tool_response" then Tier.EarlyReturn
  else Tier.Continue

/-- Classification of a thread state, read off the branch structure of
pollThread: the THREAD_TERMINAL membership test, then the
paused_for_approval early return, else keep polling. -/
def threadClassify (state : String) : Tier :=
  if THREAD_TERMINAL.contains state then Tier.Terminal
  else if state = "paused_for_approval" then Tier.EarlyReturn
  else Tier.Continue

/-- Change detection of the notifier: keep an element exactly when it differs
from the last kept one, seeded with the initial lastStatus value. -/
def changeFilter (lastStatus : String) : List String → List String
  | [] => []
  | s :: rest =>
      if s = lastStatus then changeFilter lastStatus rest else s :: changeFilter s rest

/-- One backoff step (src/polling.ts):
interval = Math.min(interval * backoffMultiplier, maxIntervalMs). -/
def nextInterval (o : PollOptions) (i : ℚ) : ℚ :=
  min (i * o.backoffMultiplier) o.maxIntervalMs

/-- The orbit of the backoff step from a given starting interval. -/
def intervalSeqFrom (o : PollOptions) (i : ℚ) : ℕ → ℚ
  | 0 => i
  | n + 1 => nextInterval o (intervalSeqFrom o i n)

/-- The interval used for the (k+1)-st sleep of a run that keeps continuing,
starting from initialIntervalMs. -/
def intervalSeq (o : PollOptions) : ℕ → ℚ :=
  intervalSeqFrom o o.initialIntervalMs

/-- state.toLowerCase() as used by md.status, written character-wise on the
underlying character list (equivalent for these ASCII status strings). -/
def strToLower (s : String) : String :=
  String.mk (s.data.map Char.toLower)

/-- md.status (src/output.ts): four-way status marker for the human line. -/
def mdStatus (state : String) : String :=
  let s := strToLower state
  if ["completed", "active", "success"].contains s then "[OK]"
  else if ["processing", "queued", "handed_off"].contains s then "[..]"
  else if ["paused", "paused_for_approval", "paused_for_resume",
           "waiting_for_tool_response", "waiting_for_response"].contains s then "[!!]"
  else if ["failed", "error", "terminated", "cancelled", "approval_rejected",
           "guardrail_trigger"].contains s then "[XX]"
  else "[--]"

/-- Human-mode thread_status line of statusLine (src/output.ts): the base line
plus, when a task list is present and nonempty, the completed/total suffix
computed as tasks.filter(completed).length over tasks.length. -/
def threadStatusLineHuman (threadId state : String)
    (tasks : Option (List (Option String × Bool))) : String :=
  let line := mdStatus state ++ " Thread `" ++ threadId ++ "` — **" ++ state ++ "**"
  match tasks with
  | some ts =>
      if 0 < ts.length then
        line ++ " (tasks: " ++ toString (ts.filter (fun t => t.2)).length ++ "/"
             ++ toString ts.length ++ ")"
      else line
  | none => line

/-- Task progress reported alongside a thread status notification:
(completed count, total count), as computed in statusLine (src/output.ts):
tasks.filter(t => t.completed).length and tasks.length. -/
def threadTaskProgress (ts : List (Option String × Bool)) : ℕ × ℕ :=
  ((ts.filter (fun t => t.2)).length, ts.length)

/-! ### Step lemmas for the chat loop -/

lemma pollChatLoop_nil (o : PollOptions) (uid : String) (dl i : ℚ) (ls : String) (now : ℚ) :
    pollChatLoop o uid dl [] i ls now =
      if now < dl then ([], ChatOutcome.noMoreFetches)
      else ([], ChatOutcome.timedOut chatTimeoutError) := rfl

lemma pollChatLoop_timeout (o : PollOptions) (uid : String) (dl i : ℚ) (ls : String)
    (now : ℚ) (script : List (ℚ × ChatFetch)) (h : ¬ now < dl) :
    pollChatLoop o uid dl script i ls now = ([], ChatOutcome.timedOut chatTimeoutError) := by
  cases script with
  | nil => simp [pollChatLoop, h]
  | cons p rest => obtain ⟨d, f⟩ := p; simp [pollChatLoop, h]

lemma pollChatLoop_err (o : PollOptions) (uid : String) (dl i : ℚ) (ls : String) (now d : ℚ)
    (e : DevicApiError) (rest : List (ℚ × ChatFetch)) (h : now < dl) :
    pollChatLoop o uid dl ((d, ChatFetch.err e) :: rest) i ls now =
      ([ChatEvent.fetched (ChatFetch.err e)], ChatOutcome.fetchFailure e) := by
  simp [pollChatLoop, h]

lemma pollChatLoop_resolved (o : PollOptions) (uid : String) (dl i : ℚ) (ls : String)
    (now d : ℚ) (r : RealtimeChatHistory) (rest : List (ℚ × ChatFetch))
    (h : now < dl) (hc : chatClassify r.status ≠ Tier.Continue) :
    pollChatLoop o uid dl ((d, ChatFetch.ok r) :: rest) i ls now =
      (ChatEvent.fetched (ChatFetch.ok r) ::
        (if r.status = ls then [] else [ChatEvent.notified uid r.status]),
       ChatOutcome.resolved r) := by
  unfold chatClassify at hc
  by_cases ht : r.status ∈ CHAT_TERMINAL
  · simp [pollChatLoop, h, ht]
  · by_cases hw : r.status = "waiting_for_tool_response"
    · simp [pollChatLoop, h, ht, hw]
    · simp [ht, hw] at hc

lemma pollChatLoop_continue (o : PollOptions) (uid : String) (dl i : ℚ) (ls : String)
    (now d : ℚ) (r : RealtimeChatHistory) (rest : List (ℚ × ChatFetch))
    (h : now < dl) (hc : chatClassify r.status = Tier.Continue) :
    pollChatLoop o uid dl ((d, ChatFetch.ok r) :: rest) i ls now =
      (ChatEvent.fetched (ChatFetch.ok r) ::
        ((if r.status = ls then [] else [ChatEvent.notified uid r.status])
          ++ ChatEvent.slept i ::
             (pollChatLoop o uid dl rest (nextInterval o i)
               (if r.status = ls then ls else r.status) (now + d + i)).1),
       (pollChatLoop o uid dl rest (nextInterval o i)
         (if r.status = ls then ls else r.status) (now + d + i)).2) := by
  unfold chatClassify at hc
  by_cases ht : r.status ∈ CHAT_TERMINAL
  · simp [ht] at hc
  · by_cases hw : r.status = "waiting_for_tool_response"
    · simp +decide [ht, hw] at hc
    · simp [pollChatLoop, h, ht, hw, nextInterval]

lemma chatClassify_of_terminal {s : String} (ht : s ∈ CHAT_TERMINAL) :
    chatClassify s = Tier.Terminal := by
  simp [chatClassify, ht]

lemma chatClassify_not_continue_iff (s : String) :
    chatClassify s ≠ Tier.Continue ↔
      CHAT_TERMINAL.contains s ∨ s = "waiting_for_tool_response" := by
  unfold chatClassify
  by_cases ht : s ∈ CHAT_TERMINAL
  · simp [ht]
  · by_cases hw : s = "waiting_for_tool_response" <;> simp +decide [ht, hw]

/-! ### Extractor lemmas -/

lemma chatSleeps_nil : chatSleeps [] = [] := rfl

lemma chatSleeps_cons (e : ChatEvent) (l : List ChatEvent) :
    chatSleeps (e :: l) =
      (match e with | ChatEvent.slept d => [d] | _ => []) ++ chatSleeps l := by
  cases e <;> simp [chatSleeps]

lemma chatSleeps_append (l₁ l₂ : List ChatEvent) :
    chatSleeps (l₁ ++ l₂) = chatSleeps l₁ ++ chatSleeps l₂ := by
  simp [chatSleeps]

lemma chatNotifs_append (l₁ l₂ : List ChatEvent) :
    chatNotifs (l₁ ++ l₂) = chatNotifs l₁ ++ chatNotifs l₂ := by
  simp [chatNotifs]

lemma chatObserved_append (l₁ l₂ : List ChatEvent) :
    chatObserved (l₁ ++ l₂) = chatObserved l₁ ++ chatObserved l₂ := by
  simp [chatObserved]

/-! ### Backoff interval facts -/

lemma nextInterval_le_max (o : PollOptions) (i : ℚ) : nextInterval o i ≤ o.maxIntervalMs :=
  min_le_right _ _

lemma le_nextInterval (o : PollOptions) {i : ℚ} (hm : 1 ≤ o.backoffMultiplier)
    (h0 : 0 ≤ i) (hM : i ≤ o.maxIntervalMs) : i ≤ nextInterval o i :=
  le_min (le_mul_of_one_le_right h0 hm) hM

lemma nextInterval_nonneg (o : PollOptions) {i : ℚ} (hm : 1 ≤ o.backoffMultiplier)
    (h0 : 0 ≤ i) (hM : i ≤ o.maxIntervalMs) : 0 ≤ nextInterval o i :=
  h0.trans (le_nextInterval o hm h0 hM)

lemma intervalSeqFrom_zero (o : PollOptions) (i : ℚ) : intervalSeqFrom o i 0 = i := rfl

lemma intervalSeqFrom_shift (o : PollOptions) (i : ℚ) :
    ∀ k, intervalSeqFrom o (nextInterval o i) k = intervalSeqFrom o i (k + 1)
  | 0 => rfl
  | k + 1 => by
      show nextInterval o (intervalSeqFrom o (nextInterval o i) k) = intervalSeqFrom o i (k + 1 + 1)
      rw [intervalSeqFrom_shift o i k]
      rfl

lemma intervalSeqFrom_invariant (o : PollOptions) {i : ℚ} (hm : 1 ≤ o.backoffMultiplier)
    (h0 : 0 ≤ i) (hM : i ≤ o.maxIntervalMs) :
    ∀ k, 0 ≤ intervalSeqFrom o i k ∧ intervalSeqFrom o i k ≤ o.maxIntervalMs
  | 0 => ⟨h0, hM⟩
  | k + 1 => by
      obtain ⟨hk0, hkM⟩ := intervalSeqFrom_invariant o hm h0 hM k
      exact ⟨nextInterval_nonneg o hm hk0 hkM, nextInterval_le_max o _⟩

lemma intervalSeqFrom_mono_step (o : PollOptions) {i : ℚ} (hm : 1 ≤ o.backoffMultiplier)
    (h0 : 0 ≤ i) (hM : i ≤ o.maxIntervalMs) (k : ℕ) :
    intervalSeqFrom o i k ≤ intervalSeqFrom o i (k + 1) := by
  obtain ⟨hk0, hkM⟩ := intervalSeqFrom_invariant o hm h0 hM k
  exact le_nextInterval o hm hk0 hkM

lemma chain_le_map_range {f : ℕ → ℚ} (hf : ∀ k, f k ≤ f (k + 1)) (n : ℕ) :
    List.Chain' (· ≤ ·) ((List.range n).map f) := by
  rw [List.chain'_map]
  cases n with
  | zero => simp
  | succ m =>
      rw [List.chain'_range_succ]
      intro k _
      exact hf k

/-- The sleep durations of any chat run are an initial segment of the orbit of
the backoff step from the starting interval. -/
lemma chatSleeps_orbit (o : PollOptions) (uid : String) (dl : ℚ) :
    ∀ (script : List (ℚ × ChatFetch)) (i : ℚ) (ls : String) (now : ℚ),
    ∃ n, chatSleeps (pollChatLoop o uid dl script i ls now).1 =
      (List.range n).map (intervalSeqFrom o i)
  | [], i, ls, now =>
      ⟨0, by by_cases h : now < dl <;> simp [pollChatLoop_nil, h, chatSleeps]⟩
  | (d, f) :: rest, i, ls, now => by
      by_cases h : now < dl
      · cases f with
        | err e =>
            exact ⟨0, by simp [pollChatLoop_err o uid dl i ls now d e rest h, chatSleeps]⟩
        | ok r =>
            by_cases hc : chatClassify r.status = Tier.Continue
            · obtain ⟨n, hn⟩ := chatSleeps_orbit o uid dl rest
                (nextInterval o i) (if r.status = ls then ls else r.status) (now + d + i)
              refine ⟨n + 1, ?_⟩
              rw [pollChatLoop_continue o uid dl i ls now d r rest h hc]
              rw [List.range_succ_eq_map, List.map_cons, List.map_map]
              by_cases hls : r.status = ls
              · rw [if_pos hls] at hn
                simp [hls, chatSleeps_cons, chatSleeps_append, chatSleeps_nil,
                  Function.comp_def, Nat.succ_eq_add_one, intervalSeqFrom_zero,
                  ← intervalSeqFrom_shift]
                exact hn
              · rw [if_neg hls] at hn
                simp [hls, chatSleeps_cons, chatSleeps_append, chatSleeps_nil,
                  Function.comp_def, Nat.succ_eq_add_one, intervalSeqFrom_zero,
                  ← intervalSeqFrom_shift]
                exact hn
            · refine ⟨0, ?_⟩
              rw [pollChatLoop_resolved o uid dl i ls now d r rest h hc]
              by_cases hls : r.status = ls <;> simp [hls, chatSleeps]
      · exact ⟨0, by simp [pollChatLoop_timeout o uid dl i ls now _ h, chatSleeps]⟩

lemma chatNotifs_nil : chatNotifs [] = [] := rfl

lemma chatObserved_nil : chatObserved [] = [] := rfl

lemma chatNotifs_cons (e : ChatEvent) (l : List ChatEvent) :
    chatNotifs (e :: l) =
      (match e with | ChatEvent.notified _ s => [s] | _ => []) ++ chatNotifs l := by
  cases e <;> simp [chatNotifs]

lemma chatObserved_cons (e : ChatEvent) (l : List ChatEvent) :
    chatObserved (e :: l) =
      (match e with | ChatEvent.fetched (ChatFetch.ok r) => [r.status] | _ => [])
        ++ chatObserved l := by
  cases e with
  | fetched f => cases f <;> simp [chatObserved]
  | notified u s => simp [chatObserved]
  | slept d => simp [chatObserved]

/-- The notified statuses of any chat run are exactly the change-filtered
observed statuses, seeded with the running lastStatus: a notification happens
in an iteration exactly when the observed status differs from the previously
recorded one. -/
lemma chatNotifs_eq_changeFilter (o : PollOptions) (uid : String) (dl : ℚ) :
    ∀ (script : List (ℚ × ChatFetch)) (i : ℚ) (ls : String) (now : ℚ),
    chatNotifs (pollChatLoop o uid dl script i ls now).1 =
      changeFilter ls (chatObserved (pollChatLoop o uid dl script i ls now).1)
  | [], i, ls, now => by
      by_cases h : now < dl <;>
        simp [pollChatLoop_nil, h, chatNotifs, chatObserved, changeFilter]
  | (d, f) :: rest, i, ls, now => by
      by_cases h : now < dl
      · cases f with
        | err e =>
            simp [pollChatLoop_err o uid dl i ls now d e rest h, chatNotifs, chatObserved,
              changeFilter]
        | ok r =>
            by_cases hc : chatClassify r.status = Tier.Continue
            · have ih := chatNotifs_eq_changeFilter o uid dl rest
                (nextInterval o i) (if r.status = ls then ls else r.status) (now + d + i)
              rw [pollChatLoop_continue o uid dl i ls now d r rest h hc]
              by_cases hls : r.status = ls
              · subst hls
                rw [if_pos rfl] at ih
                simp only [if_pos rfl, List.nil_append]
                rw [chatNotifs_cons, chatObserved_cons]
                simp only [chatNotifs_cons, chatObserved_cons, chatNotifs_append]
                simp [changeFilter, ih, chatObserved_cons, chatNotifs_nil, chatObserved_nil]
              · rw [if_neg hls] at ih
                simp only [if_neg hls]
                rw [chatNotifs_cons, chatObserved_cons]
                simp only [chatNotifs_cons, chatObserved_cons, chatNotifs_append,
                  chatObserved_append, List.append_assoc]
                simp [changeFilter, hls, ih, chatObserved_cons, chatNotifs_nil, chatObserved_nil]
            · rw [pollChatLoop_resolved o uid dl i ls now d r rest h hc]
              by_cases hls : r.status = ls <;>
                simp [hls, chatNotifs_cons, chatObserved_cons, chatNotifs, chatObserved,
                  changeFilter]
      · simp [pollChatLoop_timeout o uid dl i ls now _ h, chatNotifs, chatObserved,
          changeFilter]

/-- Every fetchFailure outcome carries exactly an error from the script:
the failure is propagated unmodified. -/
lemma chat_fetchFailure_mem (o : PollOptions) (uid : String) (dl : ℚ) :
    ∀ (script : List (ℚ × ChatFetch)) (i : ℚ) (ls : String) (now : ℚ) (e : DevicApiError),
    (pollChatLoop o uid dl script i ls now).2 = ChatOutcome.fetchFailure e →
    ∃ d, (d, ChatFetch.err e) ∈ script
  | [], i, ls, now, e => by
      by_cases h : now < dl <;> simp [pollChatLoop_nil, h]
  | (d, f) :: rest, i, ls, now, e => by
      by_cases h : now < dl
      · cases f with
        | err e' =>
            intro he
            rw [pollChatLoop_err o uid dl i ls now d e' rest h] at he
            simp only [ChatOutcome.fetchFailure.injEq] at he
            exact ⟨d, by simp [he]⟩
        | ok r =>
            by_cases hc : chatClassify r.status = Tier.Continue
            · intro he
              rw [pollChatLoop_continue o uid dl i ls now d r rest h hc] at he
              obtain ⟨d', hd'⟩ := chat_fetchFailure_mem o uid dl rest
                (nextInterval o i) (if r.status = ls then ls else r.status) (now + d + i) e he
              exact ⟨d', List.mem_cons_of_mem _ hd'⟩
            · intro he
              rw [pollChatLoop_resolved o uid dl i ls now d r rest h hc] at he
              simp at he
      · intro he
        rw [pollChatLoop_timeout o uid dl i ls now _ h] at he
        simp at he

/-- The only error the chat poller itself synthesizes is the timeout error. -/
lemma chat_timedOut_eq (o : PollOptions) (uid : String) (dl : ℚ) :
    ∀ (script : List (ℚ × ChatFetch)) (i : ℚ) (ls : String) (now : ℚ) (err : DevicCliError),
    (pollChatLoop o uid dl script i ls now).2 = ChatOutcome.timedOut err →
    err = chatTimeoutError
  | [], i, ls, now, err => by
      by_cases h : now < dl
      · simp [pollChatLoop_nil, h]
      · intro he
        rw [pollChatLoop_nil] at he
        rw [if_neg h] at he
        simp only [ChatOutcome.timedOut.injEq] at he
        exact he.symm
  | (d, f) :: rest, i, ls, now, err => by
      by_cases h : now < dl
      · cases f with
        | err e' =>
            intro he
            rw [pollChatLoop_err o uid dl i ls now d e' rest h] at he
            simp at he
        | ok r =>
            by_cases hc : chatClassify r.status = Tier.Continue
            · intro he
              rw [pollChatLoop_continue o uid dl i ls now d r rest h hc] at he
              exact chat_timedOut_eq o uid dl rest
                (nextInterval o i) (if r.status = ls then ls else r.status) (now + d + i) err he
            · intro he
              rw [pollChatLoop_resolved o uid dl i ls now d r rest h hc] at he
              simp at he
      · intro he
        rw [pollChatLoop_timeout o uid dl i ls now _ h] at he
        simp only [ChatOutcome.timedOut.injEq] at he
        exact he.symm

/-- A chat run sleeps exactly once per Continue-classified observation. -/
lemma chatSleeps_length_eq (o : PollOptions) (uid : String) (dl : ℚ) :
    ∀ (script : List (ℚ × ChatFetch)) (i : ℚ) (ls : String) (now : ℚ),
    (chatSleeps (pollChatLoop o uid dl script i ls now).1).length =
      (chatObserved (pollChatLoop o uid dl script i ls now).1).countP
        (fun s => decide (chatClassify s = Tier.Continue))
  | [], i, ls, now => by
      by_cases h : now < dl <;> simp [pollChatLoop_nil, h, chatSleeps, chatObserved]
  | (d, f) :: rest, i, ls, now => by
      by_cases h : now < dl
      · cases f with
        | err e =>
            simp [pollChatLoop_err o uid dl i ls now d e rest h, chatSleeps, chatObserved]
        | ok r =>
            by_cases hc : chatClassify r.status = Tier.Continue
            · have ih := chatSleeps_length_eq o uid dl rest
                (nextInterval o i) (if r.status = ls then ls else r.status) (now + d + i)
              rw [pollChatLoop_continue o uid dl i ls now d r rest h hc]
              by_cases hls : r.status = ls
              · subst hls
                rw [if_pos rfl] at ih
                simp [chatSleeps_cons, chatSleeps_append, chatObserved_cons,
                  chatObserved_append, List.countP_cons, hc, ih]
              · rw [if_neg hls] at ih
                simp [hls, chatSleeps_cons, chatSleeps_append, chatObserved_cons,
                  chatObserved_append, List.countP_cons, hc, ih]
            · rw [pollChatLoop_resolved o uid dl i ls now d r rest h hc]
              by_cases hls : r.status = ls
              · subst hls
                simp [chatSleeps_cons, chatObserved_cons, chatSleeps, chatObserved,
                  List.countP_cons, hc]
              · simp [hls, chatSleeps_cons, chatObserved_cons, chatSleeps, chatObserved,
                  List.countP_cons, hc]
      · simp [pollChatLoop_timeout o uid dl i ls now _ h, chatSleeps, chatObserved]

/-- Any chat run's event list is empty or starts with a fetch: in particular
no sleep ever precedes the first fetch. -/
lemma chat_events_head (o : PollOptions) (uid : String) (dl : ℚ)
    (script : List (ℚ × ChatFetch)) (i : ℚ) (ls : String) (now : ℚ) :
    (pollChatLoop o uid dl script i ls now).1 = [] ∨
      ∃ f tl, (pollChatLoop o uid dl script i ls now).1 = ChatEvent.fetched f :: tl := by
  by_cases h : now < dl
  · cases script with
    | nil => exact Or.inl (by simp [pollChatLoop_nil, h])
    | cons p rest =>
        obtain ⟨d, f⟩ := p
        cases f with
        | err e =>
            exact Or.inr ⟨ChatFetch.err e, [],
              by rw [pollChatLoop_err o uid dl i ls now d e rest h]⟩
        | ok r =>
            by_cases hc : chatClassify r.status = Tier.Continue
            · exact Or.inr ⟨ChatFetch.ok r, _,
                by rw [pollChatLoop_continue o uid dl i ls now d r rest h hc]⟩
            · exact Or.inr ⟨ChatFetch.ok r, _,
                by rw [pollChatLoop_resolved o uid dl i ls now d r rest h hc]⟩
  · exact Or.inl (by rw [pollChatLoop_timeout o uid dl i ls now _ h])

/-! ### Step lemmas for the thread loop -/

lemma pollThreadLoop_nil (o : PollOptions) (uid : String) (dl i : ℚ) (ls : String) (now : ℚ) :
    pollThreadLoop o uid dl [] i ls now =
      if now < dl then ([], ThreadOutcome.noMoreFetches)
      else ([], ThreadOutcome.timedOut threadTimeoutError) := rfl

lemma pollThreadLoop_timeout (o : PollOptions) (uid : String) (dl i : ℚ) (ls : String)
    (now : ℚ) (script : List (ℚ × ThreadFetch)) (h : ¬ now < dl) :
    pollThreadLoop o uid dl script i ls now = ([], ThreadOutcome.timedOut threadTimeoutError) := by
  cases script with
  | nil => simp [pollThreadLoop, h]
  | cons p rest => obtain ⟨d, f⟩ := p; simp [pollThreadLoop, h]

lemma pollThreadLoop_err (o : PollOptions) (uid : String) (dl i : ℚ) (ls : String) (now d : ℚ)
    (e : DevicApiError) (rest : List (ℚ × ThreadFetch)) (h : now < dl) :
    pollThreadLoop o uid dl ((d, ThreadFetch.err e) :: rest) i ls now =
      ([ThreadEvent.fetched (ThreadFetch.err e)], ThreadOutcome.fetchFailure e) := by
  simp [pollThreadLoop, h]

lemma pollThreadLoop_resolved (o : PollOptions) (uid : String) (dl i : ℚ) (ls : String)
    (now d : ℚ) (r : AgentThreadDto) (rest : List (ℚ × ThreadFetch))
    (h : now < dl) (hc : threadClassify r.state ≠ Tier.Continue) :
    pollThreadLoop o uid dl ((d, ThreadFetch.ok r) :: rest) i ls now =
      (ThreadEvent.fetched (ThreadFetch.ok r) ::
        (if r.state = ls then [] else [ThreadEvent.notified uid r.state
           (r.tasks.map (fun ts => ts.map (fun t => (t.title, t.completed))))]),
       ThreadOutcome.resolved r) := by
  unfold threadClassify at hc
  by_cases ht : r.state ∈ THREAD_TERMINAL
  · simp [pollThreadLoop, h, ht]
  · by_cases hw : r.state = "paused_for_approval"
    · simp [pollThreadLoop, h, ht, hw]
    · simp [ht, hw] at hc

lemma pollThreadLoop_continue (o : PollOptions) (uid : String) (dl i : ℚ) (ls : String)
    (now d : ℚ) (r : AgentThreadDto) (rest : List (ℚ × ThreadFetch))
    (h : now < dl) (hc : threadClassify r.state = Tier.Continue) :
    pollThreadLoop o uid dl ((d, ThreadFetch.ok r) :: rest) i ls now =
      (ThreadEvent.fetched (ThreadFetch.ok r) ::
        ((if r.state = ls then [] else [ThreadEvent.notified uid r.state
           (r.tasks.map (fun ts => ts.map (fun t => (t.title, t.completed))))])
          ++ ThreadEvent.slept i ::
             (pollThreadLoop o uid dl rest (nextInterval o i)
               (if r.state = ls then ls else r.state) (now + d + i)).1),
       (pollThreadLoop o uid dl rest (nextInterval o i)
         (if r.state = ls then ls else r.state) (now + d + i)).2) := by
  unfold threadClassify at hc
  by_cases ht : r.state ∈ THREAD_TERMINAL
  · simp [ht] at hc
  · by_cases hw : r.state = "paused_for_approval"
    · simp +decide [ht, hw] at hc
    · simp [pollThreadLoop, h, ht, hw, nextInterval]

lemma threadClassify_of_terminal {s : String} (ht : s ∈ THREAD_TERMINAL) :
    threadClassify s = Tier.Terminal := by
  simp [threadClassify, ht]

lemma threadClassify_not_continue_iff (s : String) :
    threadClassify s ≠ Tier.Continue ↔
      THREAD_TERMINAL.contains s ∨ s = "paused_for_approval" := by
  unfold threadClassify
  by_cases ht : s ∈ THREAD_TERMINAL
  · simp [ht]
  · by_cases hw : s = "paused_for_approval" <;> simp +decide [ht, hw]

/-! ### Extractor lemmas -/

lemma threadSleeps_nil : threadSleeps [] = [] := rfl

lemma threadSleeps_cons (e : ThreadEvent) (l : List ThreadEvent) :
    threadSleeps (e :: l) =
      (match e with | ThreadEvent.slept d => [d] | _ => []) ++ threadSleeps l := by
  cases e <;> simp [threadSleeps]

lemma threadSleeps_append (l₁ l₂ : List ThreadEvent) :
    threadSleeps (l₁ ++ l₂) = threadSleeps l₁ ++ threadSleeps l₂ := by
  simp [threadSleeps]

lemma threadNotifs_append (l₁ l₂ : List ThreadEvent) :
    threadNotifs (l₁ ++ l₂) = threadNotifs l₁ ++ threadNotifs l₂ := by
  simp [threadNotifs]

lemma threadObserved_append (l₁ l₂ : List ThreadEvent) :
    threadObserved (l₁ ++ l₂) = threadObserved l₁ ++ threadObserved l₂ := by
  simp [threadObserved]


/-- The sleep durations of any thread run are an initial segment of the orbit of
the backoff step from the starting interval. -/
lemma threadSleeps_orbit (o : PollOptions) (uid : String) (dl : ℚ) :
    ∀ (script : List (ℚ × ThreadFetch)) (i : ℚ) (ls : String) (now : ℚ),
    ∃ n, threadSleeps (pollThreadLoop o uid dl script i ls now).1 =
      (List.range n).map (intervalSeqFrom o i)
  | [], i, ls, now =>
      ⟨0, by by_cases h : now < dl <;> simp [pollThreadLoop_nil, h, threadSleeps]⟩
  | (d, f) :: rest, i, ls, now => by
      by_cases h : now < dl
      · cases f with
        | err e =>
            exact ⟨0, by simp [pollThreadLoop_err o uid dl i ls now d e rest h, threadSleeps]⟩
        | ok r =>
            by_cases hc : threadClassify r.state = Tier.Continue
            · obtain ⟨n, hn⟩ := threadSleeps_orbit o uid dl rest
                (nextInterval o i) (if r.state = ls then ls else r.state) (now + d + i)
              refine ⟨n + 1, ?_⟩
              rw [pollThreadLoop_continue o uid dl i ls now d r rest h hc]
              rw [List.range_succ_eq_map, List.map_cons, List.map_map]
              by_cases hls : r.state = ls
              · rw [if_pos hls] at hn
                simp [hls, threadSleeps_cons, threadSleeps_append, threadSleeps_nil,
                  Function.comp_def, Nat.succ_eq_add_one, intervalSeqFrom_zero,
                  ← intervalSeqFrom_shift]
                exact hn
              · rw [if_neg hls] at hn
                simp [hls, threadSleeps_cons, threadSleeps_append, threadSleeps_nil,
                  Function.comp_def, Nat.succ_eq_add_one, intervalSeqFrom_zero,
                  ← intervalSeqFrom_shift]
                exact hn
            · refine ⟨0, ?_⟩
              rw [pollThreadLoop_resolved o uid dl i ls now d r rest h hc]
              by_cases hls : r.state = ls <;> simp [hls, threadSleeps]
      · exact ⟨0, by simp [pollThreadLoop_timeout o uid dl i ls now _ h, threadSleeps]⟩

lemma threadNotifs_nil : threadNotifs [] = [] := rfl

lemma threadObserved_nil : threadObserved [] = [] := rfl

lemma threadNotifs_cons (e : ThreadEvent) (l : List ThreadEvent) :
    threadNotifs (e :: l) =
      (match e with | ThreadEvent.notified _ s _ => [s] | _ => []) ++ threadNotifs l := by
  cases e <;> simp [threadNotifs]

lemma threadObserved_cons (e : ThreadEvent) (l : List ThreadEvent) :
    threadObserved (e :: l) =
      (match e with | ThreadEvent.fetched (ThreadFetch.ok r) => [r.state] | _ => [])
        ++ threadObserved l := by
  cases e with
  | fetched f => cases f <;> simp [threadObserved]
  | notified u s => simp [threadObserved]
  | slept d => simp [threadObserved]

/-- The notified statuses of any thread run are exactly the change-filtered
observed statuses, seeded with the running lastStatus: a notification happens
in an iteration exactly when the observed status differs from the previously
recorded one. -/
lemma threadNotifs_eq_changeFilter (o : PollOptions) (uid : String) (dl : ℚ) :
    ∀ (script : List (ℚ × ThreadFetch)) (i : ℚ) (ls : String) (now : ℚ),
    threadNotifs (pollThreadLoop o uid dl script i ls now).1 =
      changeFilter ls (threadObserved (pollThreadLoop o uid dl script i ls now).1)
  | [], i, ls, now => by
      by_cases h : now < dl <;>
        simp [pollThreadLoop_nil, h, threadNotifs, threadObserved, changeFilter]
  | (d, f) :: rest, i, ls, now => by
      by_cases h : now < dl
      · cases f with
        | err e =>
            simp [pollThreadLoop_err o uid dl i ls now d e rest h, threadNotifs, threadObserved,
              changeFilter]
        | ok r =>
            by_cases hc : threadClassify r.state = Tier.Continue
            · have ih := threadNotifs_eq_changeFilter o uid dl rest
                (nextInterval o i) (if r.state = ls then ls else r.state) (now + d + i)
              rw [pollThreadLoop_continue o uid dl i ls now d r rest h hc]
              by_cases hls : r.state = ls
              · subst hls
                rw [if_pos rfl] at ih
                simp only [if_pos rfl, List.nil_append]
                rw [threadNotifs_cons, threadObserved_cons]
                simp only [threadNotifs_cons, threadObserved_cons, threadNotifs_append]
                simp [changeFilter, ih, threadObserved_cons, threadNotifs_nil, threadObserved_nil]
              · rw [if_neg hls] at ih
                simp only [if_neg hls]
                rw [threadNotifs_cons, threadObserved_cons]
                simp only [threadNotifs_cons, threadObserved_cons, threadNotifs_append,
                  threadObserved_append, List.append_assoc]
                simp [changeFilter, hls, ih, threadObserved_cons, threadNotifs_nil, threadObserved_nil]
            · rw [pollThreadLoop_resolved o uid dl i ls now d r rest h hc]
              by_cases hls : r.state = ls <;>
                simp [hls, threadNotifs_cons, threadObserved_cons, threadNotifs, threadObserved,
                  changeFilter]
      · simp [pollThreadLoop_timeout o uid dl i ls now _ h, threadNotifs, threadObserved,
          changeFilter]

/-- Every fetchFailure outcome carries exactly an error from the script:
the failure is propagated unmodified. -/
lemma thread_fetchFailure_mem (o : PollOptions) (uid : String) (dl : ℚ) :
    ∀ (script : List (ℚ × ThreadFetch)) (i : ℚ) (ls : String) (now : ℚ) (e : DevicApiError),
    (pollThreadLoop o uid dl script i ls now).2 = ThreadOutcome.fetchFailure e →
    ∃ d, (d, ThreadFetch.err e) ∈ script
  | [], i, ls, now, e => by
      by_cases h : now < dl <;> simp [pollThreadLoop_nil, h]
  | (d, f) :: rest, i, ls, now, e => by
      by_cases h : now < dl
      · cases f with
        | err e' =>
            intro he
            rw [pollThreadLoop_err o uid dl i ls now d e' rest h] at he
            simp only [ThreadOutcome.fetchFailure.injEq] at he
            exact ⟨d, by simp [he]⟩
        | ok r =>
            by_cases hc : threadClassify r.state = Tier.Continue
            · intro he
              rw [pollThreadLoop_continue o uid dl i ls now d r rest h hc] at he
              obtain ⟨d', hd'⟩ := thread_fetchFailure_mem o uid dl rest
                (nextInterval o i) (if r.state = ls then ls else r.state) (now + d + i) e he
              exact ⟨d', List.mem_cons_of_mem _ hd'⟩
            · intro he
              rw [pollThreadLoop_resolved o uid dl i ls now d r rest h hc] at he
              simp at he
      · intro he
        rw [pollThreadLoop_timeout o uid dl i ls now _ h] at he
        simp at he

/-- The only error the thread poller itself synthesizes is the timeout error. -/
lemma thread_timedOut_eq (o : PollOptions) (uid : String) (dl : ℚ) :
    ∀ (script : List (ℚ × ThreadFetch)) (i : ℚ) (ls : String) (now : ℚ) (err : DevicCliError),
    (pollThreadLoop o uid dl script i ls now).2 = ThreadOutcome.timedOut err →
    err = threadTimeoutError
  | [], i, ls, now, err => by
      by_cases h : now < dl
      · simp [pollThreadLoop_nil, h]
      · intro he
        rw [pollThreadLoop_nil] at he
        rw [if_neg h] at he
        simp only [ThreadOutcome.timedOut.injEq] at he
        exact he.symm
  | (d, f) :: rest, i, ls, now, err => by
      by_cases h : now < dl
      · cases f with
        | err e' =>
            intro he
            rw [pollThreadLoop_err o uid dl i ls now d e' rest h] at he
            simp at he
        | ok r =>
            by_cases hc : threadClassify r.state = Tier.Continue
            · intro he
              rw [pollThreadLoop_continue o uid dl i ls now d r rest h hc] at he
              exact thread_timedOut_eq o uid dl rest
                (nextInterval o i) (if r.state = ls then ls else r.state) (now + d + i) err he
            · intro he
              rw [pollThreadLoop_resolved o uid dl i ls now d r rest h hc] at he
              simp at he
      · intro he
        rw [pollThreadLoop_timeout o uid dl i ls now _ h] at he
        simp only [ThreadOutcome.timedOut.injEq] at he
        exact he.symm

/-- A thread run sleeps exactly once per Continue-classified observation. -/
lemma threadSleeps_length_eq (o : PollOptions) (uid : String) (dl : ℚ) :
    ∀ (script : List (ℚ × ThreadFetch)) (i : ℚ) (ls : String) (now : ℚ),
    (threadSleeps (pollThreadLoop o uid dl script i ls now).1).length =
      (threadObserved (pollThreadLoop o uid dl script i ls now).1).countP
        (fun s => decide (threadClassify s = Tier.Continue))
  | [], i, ls, now => by
      by_cases h : now < dl <;> simp [pollThreadLoop_nil, h, threadSleeps, threadObserved]
  | (d, f) :: rest, i, ls, now => by
      by_cases h : now < dl
      · cases f with
        | err e =>
            simp [pollThreadLoop_err o uid dl i ls now d e rest h, threadSleeps, threadObserved]
        | ok r =>
            by_cases hc : threadClassify r.state = Tier.Continue
            · have ih := threadSleeps_length_eq o uid dl rest
                (nextInterval o i) (if r.state = ls then ls else r.state) (now + d + i)
              rw [pollThreadLoop_continue o uid dl i ls now d r rest h hc]
              by_cases hls : r.state = ls
              · subst hls
                rw [if_pos rfl] at ih
                simp [threadSleeps_cons, threadSleeps_append, threadObserved_cons,
                  threadObserved_append, List.countP_cons, hc, ih]
              · rw [if_neg hls] at ih
                simp [hls, threadSleeps_cons, threadSleeps_append, threadObserved_cons,
                  threadObserved_append, List.countP_cons, hc, ih]
            · rw [pollThreadLoop_resolved o uid dl i ls now d r rest h hc]
              by_cases hls : r.state = ls
              · subst hls
                simp [threadSleeps_cons, threadObserved_cons, threadSleeps, threadObserved,
                  List.countP_cons, hc]
              · simp [hls, threadSleeps_cons, threadObserved_cons, threadSleeps, threadObserved,
                  List.countP_cons, hc]
      · simp [pollThreadLoop_timeout o uid dl i ls now _ h, threadSleeps, threadObserved]

/-- Any thread run's event list is empty or starts with a fetch: in particular
no sleep ever precedes the first fetch. -/
lemma thread_events_head (o : PollOptions) (uid : String) (dl : ℚ)
    (script : List (ℚ × ThreadFetch)) (i : ℚ) (ls : String) (now : ℚ) :
    (pollThreadLoop o uid dl script i ls now).1 = [] ∨
      ∃ f tl, (pollThreadLoop o uid dl script i ls now).1 = ThreadEvent.fetched f :: tl := by
  by_cases h : now < dl
  · cases script with
    | nil => exact Or.inl (by simp [pollThreadLoop_nil, h])
    | cons p rest =>
        obtain ⟨d, f⟩ := p
        cases f with
        | err e =>
            exact Or.inr ⟨ThreadFetch.err e, [],
              by rw [pollThreadLoop_err o uid dl i ls now d e rest h]⟩
        | ok r =>
            by_cases hc : threadClassify r.state = Tier.Continue
            · exact Or.inr ⟨ThreadFetch.ok r, _,
                by rw [pollThreadLoop_continue o uid dl i ls now d r rest h hc]⟩
            · exact Or.inr ⟨ThreadFetch.ok r, _,
                by rw [pollThreadLoop_resolved o uid dl i ls now d r rest h hc]⟩
  · exact Or.inl (by rw [pollThreadLoop_timeout o uid dl i ls now _ h])

/-! ### Counting lemmas for change detection -/

lemma changeFilter_length_le : ∀ (ls : String) (l : List String),
    (changeFilter ls l).length ≤ l.length
  | _, [] => Nat.le_refl 0
  | ls, s :: rest => by
      by_cases h : s = ls
      · simp only [changeFilter, if_pos h]
        exact (changeFilter_length_le ls rest).trans (Nat.le_succ _)
      · simp only [changeFilter, if_neg h, List.length_cons]
        exact Nat.succ_le_succ (changeFilter_length_le s rest)

lemma chatObserved_length_le (evts : List ChatEvent) :
    (chatObserved evts).length ≤ chatFetchCount evts := by
  induction evts with
  | nil => simp [chatObserved, chatFetchCount]
  | cons e l ih =>
      cases e with
      | fetched f =>
          cases f <;>
            simp only [chatObserved, chatFetchCount, List.filterMap_cons, List.length_cons]
              at ih ⊢ <;> omega
      | notified u s =>
          simpa only [chatObserved, chatFetchCount, List.filterMap_cons] using ih
      | slept d =>
          simpa only [chatObserved, chatFetchCount, List.filterMap_cons] using ih

lemma threadObserved_length_le (evts : List ThreadEvent) :
    (threadObserved evts).length ≤ threadFetchCount evts := by
  induction evts with
  | nil => simp [threadObserved, threadFetchCount]
  | cons e l ih =>
      cases e with
      | fetched f =>
          cases f <;>
            simp only [threadObserved, threadFetchCount, List.filterMap_cons, List.length_cons]
              at ih ⊢ <;> omega
      | notified u s ts =>
          simpa only [threadObserved, threadFetchCount, List.filterMap_cons] using ih
      | slept d =>
          simpa only [threadObserved, threadFetchCount, List.filterMap_cons] using ih

/-! ### Claim theorems -/

/-- C1: every snapshot observed by pollChat is classified exactly as:
completed and error are terminal, waiting_for_tool_response is early-return,
and every other status string (processing, handed_off, unrecognized values)
continues polling; symmetrically for pollThread with completed, failed,
terminated terminal and paused_for_approval early-return, handed_off and
unknown states continuing. A Continue classification makes the loop proceed
to the next iteration (its outcome is the remaining run's outcome), never an
error. -/
theorem claim1_classification :
    (∀ s : String,
      (chatClassify s = Tier.Terminal ↔ s = "completed" ∨ s = "error") ∧
      (chatClassify s = Tier.EarlyReturn ↔ s = "waiting_for_tool_response") ∧
      (chatClassify s = Tier.Continue ↔
        s ≠ "completed" ∧ s ≠ "error" ∧ s ≠ "waiting_for_tool_response")) ∧
    (∀ s : String,
      (threadClassify s = Tier.Terminal ↔
        s = "completed" ∨ s = "failed" ∨ s = "terminated") ∧
      (threadClassify s = Tier.EarlyReturn ↔ s = "paused_for_approval") ∧
      (threadClassify s = Tier.Continue ↔
        s ≠ "completed" ∧ s ≠ "failed" ∧ s ≠ "terminated" ∧ s ≠ "paused_for_approval")) ∧
    (chatClassify "processing" = Tier.Continue ∧ chatClassify "handed_off" = Tier.Continue ∧
      chatClassify "some_future_status" = Tier.Continue ∧
      threadClassify "handed_off" = Tier.Continue ∧
      threadClassify "some_future_status" = Tier.Continue) ∧
    (∀ (o : PollOptions) (uid : String) (dl i : ℚ) (ls : String) (now d : ℚ)
       (r : RealtimeChatHistory) (rest : List (ℚ × ChatFetch)),
      now < dl → chatClassify r.status = Tier.Continue →
      (pollChatLoop o uid dl ((d, ChatFetch.ok r) :: rest) i ls now).2 =
        (pollChatLoop o uid dl rest (nextInterval o i)
          (if r.status = ls then ls else r.status) (now + d + i)).2) ∧
    (∀ (o : PollOptions) (tid : String) (dl i : ℚ) (ls : String) (now d : ℚ)
       (r : AgentThreadDto) (rest : List (ℚ × ThreadFetch)),
      now < dl → threadClassify r.state = Tier.Continue →
      (pollThreadLoop o tid dl ((d, ThreadFetch.ok r) :: rest) i ls now).2 =
        (pollThreadLoop o tid dl rest (nextInterval o i)
          (if r.state = ls then ls else r.state) (now + d + i)).2) := by
  refine ⟨?_, ?_, by decide, ?_, ?_⟩
  · intro s
    by_cases h1 : s = "completed"
    · subst h1; exact ⟨by decide, by decide, by decide⟩
    · by_cases h2 : s = "error"
      · subst h2; exact ⟨by decide, by decide, by decide⟩
      · by_cases h3 : s = "waiting_for_tool_response"
        · subst h3; exact ⟨by decide, by decide, by decide⟩
        · have hm : s ∉ CHAT_TERMINAL := by simp [CHAT_TERMINAL, h1, h2]
          refine ⟨?_, ?_, ?_⟩ <;> simp [chatClassify, hm, h3, h1, h2]
  · intro s
    by_cases h1 : s = "completed"
    · subst h1; exact ⟨by decide, by decide, by decide⟩
    · by_cases h2 : s = "failed"
      · subst h2; exact ⟨by decide, by decide, by decide⟩
      · by_cases h3 : s = "terminated"
        · subst h3; exact ⟨by decide, by decide, by decide⟩
        · by_cases h4 : s = "paused_for_approval"
          · subst h4; exact ⟨by decide, by decide, by decide⟩
          · have hm : s ∉ THREAD_TERMINAL := by simp [THREAD_TERMINAL, h1, h2, h3]
            refine ⟨?_, ?_, ?_⟩ <;> simp [threadClassify, hm, h4, h1, h2, h3]
  · intro o uid dl i ls now d r rest h hc
    rw [pollChatLoop_continue o uid dl i ls now d r rest h hc]
  · intro o tid dl i ls now d r rest h hc
    rw [pollThreadLoop_continue o tid dl i ls now d r rest h hc]

/-- C1 witness: the Continue step applied to a concrete processing snapshot. -/
theorem claim1_classification_witness :
    ((0 : ℚ) < 1 ∧ chatClassify (chatSnap "processing").status = Tier.Continue) ∧
    (pollChatLoop CHAT_POLL_DEFAULTS "c1" 1
        [((0 : ℚ), ChatFetch.ok (chatSnap "processing"))] 5 "" 0).2 =
      (pollChatLoop CHAT_POLL_DEFAULTS "c1" 1 [] (nextInterval CHAT_POLL_DEFAULTS 5)
        (if (chatSnap "processing").status = "" then ""
         else (chatSnap "processing").status) ((0 : ℚ) + 0 + 5)).2 :=
  ⟨⟨by norm_num, by decide⟩,
    claim1_classification.2.2.2.1 CHAT_POLL_DEFAULTS "c1" 1 5 "" 0 0
      (chatSnap "processing") [] (by norm_num) (by decide)⟩

/-- C2: when backoffMultiplier ≥ 1 and initialIntervalMs ≤ maxIntervalMs
(with a nonnegative initial interval, as PollConfig's positive fields
guarantee), the sleep sequence of any pollChat or pollThread run is an
initial segment of the min-clamped geometric recurrence starting from
initialIntervalMs, is non-decreasing, and every element is at most
maxIntervalMs. -/
theorem claim2_backoff_intervals (o : PollOptions)
    (hm : 1 ≤ o.backoffMultiplier) (h0 : 0 ≤ o.initialIntervalMs)
    (hM : o.initialIntervalMs ≤ o.maxIntervalMs) :
    (∀ (uid : String) (now : ℚ) (script : List (ℚ × ChatFetch)),
      (∃ n, chatSleeps (pollChat o uid now script).1 =
        (List.range n).map (intervalSeq o)) ∧
      List.Chain' (· ≤ ·) (chatSleeps (pollChat o uid now script).1) ∧
      ∀ d ∈ chatSleeps (pollChat o uid now script).1, d ≤ o.maxIntervalMs) ∧
    (∀ (tid : String) (now : ℚ) (script : List (ℚ × ThreadFetch)),
      (∃ n, threadSleeps (pollThread o tid now script).1 =
        (List.range n).map (intervalSeq o)) ∧
      List.Chain' (· ≤ ·) (threadSleeps (pollThread o tid now script).1) ∧
      ∀ d ∈ threadSleeps (pollThread o tid now script).1, d ≤ o.maxIntervalMs) := by
  constructor
  · intro uid now script
    obtain ⟨n, hn⟩ := chatSleeps_orbit o uid (now + o.timeoutMs) script o.initialIntervalMs "" now
    have hrw : pollChat o uid now script =
        pollChatLoop o uid (now + o.timeoutMs) script o.initialIntervalMs "" now := rfl
    refine ⟨⟨n, by rw [hrw]; exact hn⟩, ?_, ?_⟩
    · rw [hrw, hn]
      exact chain_le_map_range (fun k => intervalSeqFrom_mono_step o hm h0 hM k) n
    · intro d hd
      rw [hrw, hn] at hd
      simp only [List.mem_map] at hd
      obtain ⟨k, -, rfl⟩ := hd
      exact (intervalSeqFrom_invariant o hm h0 hM k).2
  · intro tid now script
    obtain ⟨n, hn⟩ := threadSleeps_orbit o tid (now + o.timeoutMs) script o.initialIntervalMs "" now
    have hrw : pollThread o tid now script =
        pollThreadLoop o tid (now + o.timeoutMs) script o.initialIntervalMs "" now := rfl
    refine ⟨⟨n, by rw [hrw]; exact hn⟩, ?_, ?_⟩
    · rw [hrw, hn]
      exact chain_le_map_range (fun k => intervalSeqFrom_mono_step o hm h0 hM k) n
    · intro d hd
      rw [hrw, hn] at hd
      simp only [List.mem_map] at hd
      obtain ⟨k, -, rfl⟩ := hd
      exact (intervalSeqFrom_invariant o hm h0 hM k).2

/-- C2 witness: the default chat configuration satisfies the hypotheses. -/
theorem claim2_backoff_intervals_witness :
    ((1 : ℚ) ≤ CHAT_POLL_DEFAULTS.backoffMultiplier ∧
      (0 : ℚ) ≤ CHAT_POLL_DEFAULTS.initialIntervalMs ∧
      CHAT_POLL_DEFAULTS.initialIntervalMs ≤ CHAT_POLL_DEFAULTS.maxIntervalMs) ∧
    ((∀ (uid : String) (now : ℚ) (script : List (ℚ × ChatFetch)),
      (∃ n, chatSleeps (pollChat CHAT_POLL_DEFAULTS uid now script).1 =
        (List.range n).map (intervalSeq CHAT_POLL_DEFAULTS)) ∧
      List.Chain' (· ≤ ·) (chatSleeps (pollChat CHAT_POLL_DEFAULTS uid now script).1) ∧
      ∀ d ∈ chatSleeps (pollChat CHAT_POLL_DEFAULTS uid now script).1,
        d ≤ CHAT_POLL_DEFAULTS.maxIntervalMs) ∧
    (∀ (tid : String) (now : ℚ) (script : List (ℚ × ThreadFetch)),
      (∃ n, threadSleeps (pollThread CHAT_POLL_DEFAULTS tid now script).1 =
        (List.range n).map (intervalSeq CHAT_POLL_DEFAULTS)) ∧
      List.Chain' (· ≤ ·) (threadSleeps (pollThread CHAT_POLL_DEFAULTS tid now script).1) ∧
      ∀ d ∈ threadSleeps (pollThread CHAT_POLL_DEFAULTS tid now script).1,
        d ≤ CHAT_POLL_DEFAULTS.maxIntervalMs)) :=
  ⟨⟨by norm_num [CHAT_POLL_DEFAULTS], by norm_num [CHAT_POLL_DEFAULTS],
      by norm_num [CHAT_POLL_DEFAULTS]⟩,
    claim2_backoff_intervals CHAT_POLL_DEFAULTS (by norm_num [CHAT_POLL_DEFAULTS])
      (by norm_num [CHAT_POLL_DEFAULTS]) (by norm_num [CHAT_POLL_DEFAULTS])⟩

/-- C3: as soon as a fetched snapshot classifies Terminal or EarlyReturn,
the loop returns Resolved with that very snapshot in the same iteration, and
the iteration's events contain no sleep. -/
theorem claim3_resolved_immediately :
    (∀ (o : PollOptions) (uid : String) (dl i : ℚ) (ls : String) (now d : ℚ)
       (r : RealtimeChatHistory) (rest : List (ℚ × ChatFetch)),
      now < dl → chatClassify r.status ≠ Tier.Continue →
      pollChatLoop o uid dl ((d, ChatFetch.ok r) :: rest) i ls now =
        (ChatEvent.fetched (ChatFetch.ok r) ::
          (if r.status = ls then [] else [ChatEvent.notified uid r.status]),
         ChatOutcome.resolved r) ∧
      chatSleeps (pollChatLoop o uid dl ((d, ChatFetch.ok r) :: rest) i ls now).1 = []) ∧
    (∀ (o : PollOptions) (tid : String) (dl i : ℚ) (ls : String) (now d : ℚ)
       (r : AgentThreadDto) (rest : List (ℚ × ThreadFetch)),
      now < dl → threadClassify r.state ≠ Tier.Continue →
      pollThreadLoop o tid dl ((d, ThreadFetch.ok r) :: rest) i ls now =
        (ThreadEvent.fetched (ThreadFetch.ok r) ::
          (if r.state = ls then []
           else [ThreadEvent.notified tid r.state
             (r.tasks.map (fun ts => ts.map (fun t => (t.title, t.completed))))]),
         ThreadOutcome.resolved r) ∧
      threadSleeps (pollThreadLoop o tid dl ((d, ThreadFetch.ok r) :: rest) i ls now).1 = []) := by
  constructor
  · intro o uid dl i ls now d r rest h hc
    have hstep := pollChatLoop_resolved o uid dl i ls now d r rest h hc
    refine ⟨hstep, ?_⟩
    rw [hstep]
    by_cases hls : r.status = ls <;> simp [hls, chatSleeps]
  · intro o tid dl i ls now d r rest h hc
    have hstep := pollThreadLoop_resolved o tid dl i ls now d r rest h hc
    refine ⟨hstep, ?_⟩
    rw [hstep]
    by_cases hls : r.state = ls <;> simp [hls, threadSleeps]

/-- C3 witness: a completed chat snapshot resolves in its own iteration. -/
theorem claim3_resolved_immediately_witness :
    ((0 : ℚ) < 1 ∧ chatClassify (chatSnap "completed").status ≠ Tier.Continue) ∧
    (pollChatLoop CHAT_POLL_DEFAULTS "c1" 1
        [((0 : ℚ), ChatFetch.ok (chatSnap "completed"))] 5 "" 0 =
      (ChatEvent.fetched (ChatFetch.ok (chatSnap "completed")) ::
        (if (chatSnap "completed").status = "" then []
         else [ChatEvent.notified "c1" (chatSnap "completed").status]),
       ChatOutcome.resolved (chatSnap "completed")) ∧
      chatSleeps (pollChatLoop CHAT_POLL_DEFAULTS "c1" 1
        [((0 : ℚ), ChatFetch.ok (chatSnap "completed"))] 5 "" 0).1 = []) :=
  ⟨⟨by norm_num, by decide⟩,
    claim3_resolved_immediately.1 CHAT_POLL_DEFAULTS "c1" 1 5 "" 0 0
      (chatSnap "completed") [] (by norm_num) (by decide)⟩

/-- C4: a status-change notification is emitted in an iteration exactly when
the observed display status differs from the previously recorded one (the
notified sequence is the change-filter of the observed sequence, seeded with
the initial empty lastStatus), with at most one notification per fetch;
the sequence processing, processing, completed yields exactly the two
notifications processing then completed, and an oscillating A, B, A yields
three because comparison is only against the immediately previous value. -/
theorem claim4_change_detection :
    (∀ (o : PollOptions) (uid : String) (now : ℚ) (script : List (ℚ × ChatFetch)),
      chatNotifs (pollChat o uid now script).1 =
        changeFilter "" (chatObserved (pollChat o uid now script).1) ∧
      (chatNotifs (pollChat o uid now script).1).length ≤
        chatFetchCount (pollChat o uid now script).1) ∧
    (∀ (o : PollOptions) (tid : String) (now : ℚ) (script : List (ℚ × ThreadFetch)),
      threadNotifs (pollThread o tid now script).1 =
        changeFilter "" (threadObserved (pollThread o tid now script).1) ∧
      (threadNotifs (pollThread o tid now script).1).length ≤
        threadFetchCount (pollThread o tid now script).1) ∧
    (∀ A B : String, A ≠ B → A ≠ "" → changeFilter "" [A, B, A] = [A, B, A]) ∧
    chatNotifs (pollChat CHAT_POLL_DEFAULTS "c1" 0
      [((0 : ℚ), ChatFetch.ok (chatSnap "processing")),
       ((0 : ℚ), ChatFetch.ok (chatSnap "processing")),
       ((0 : ℚ), ChatFetch.ok (chatSnap "completed"))]).1 =
      ["processing", "completed"] := by
  refine ⟨?_, ?_, ?_, ?_⟩
  · intro o uid now script
    have hb := chatNotifs_eq_changeFilter o uid (now + o.timeoutMs) script
      o.initialIntervalMs "" now
    refine ⟨hb, ?_⟩
    calc (chatNotifs (pollChat o uid now script).1).length
        = (changeFilter "" (chatObserved (pollChat o uid now script).1)).length := by
          rw [show chatNotifs (pollChat o uid now script).1 =
            changeFilter "" (chatObserved (pollChat o uid now script).1) from hb]
      _ ≤ (chatObserved (pollChat o uid now script).1).length :=
          changeFilter_length_le _ _
      _ ≤ chatFetchCount (pollChat o uid now script).1 :=
          chatObserved_length_le _
  · intro o tid now script
    have hb := threadNotifs_eq_changeFilter o tid (now + o.timeoutMs) script
      o.initialIntervalMs "" now
    refine ⟨hb, ?_⟩
    calc (threadNotifs (pollThread o tid now script).1).length
        = (changeFilter "" (threadObserved (pollThread o tid now script).1)).length := by
          rw [show threadNotifs (pollThread o tid now script).1 =
            changeFilter "" (threadObserved (pollThread o tid now script).1) from hb]
      _ ≤ (threadObserved (pollThread o tid now script).1).length :=
          changeFilter_length_le _ _
      _ ≤ threadFetchCount (pollThread o tid now script).1 :=
          threadObserved_length_le _
  · intro A B hab ha
    have hba : ¬ B = A := fun h => hab h.symm
    simp [changeFilter, ha, hba, hab]
  · norm_num +decide [pollChat, pollChatLoop, CHAT_POLL_DEFAULTS, chatNotifs,
      CHAT_TERMINAL, chatSnap, min_def]

/-- C4 witness: the oscillation clause at concrete distinct statuses. -/
theorem claim4_change_detection_witness :
    (("queued" : String) ≠ "processing" ∧ ("queued" : String) ≠ "") ∧
    changeFilter "" ["queued", "processing", "queued"] =
      ["queued", "processing", "queued"] :=
  ⟨⟨by decide, by decide⟩,
    claim4_change_detection.2.2.1 "queued" "processing" (by decide) (by decide)⟩

/-- C5 counterexample: the timeout error is one constant value — two runs
that differ only in the resource identifier throw the very same error, whose
fields are the fixed message, the code POLL_TIMEOUT and exit code 3; it
carries neither the chat uid / thread id nor the elapsed time, contrary to
the claim. -/
theorem claim5_counterexample :
    (pollChat (zeroTimeout CHAT_POLL_DEFAULTS) "chat-A" 0 []).2 =
      ChatOutcome.timedOut chatTimeoutError ∧
    (pollChat (zeroTimeout CHAT_POLL_DEFAULTS) "chat-B" 0 []).2 =
      ChatOutcome.timedOut chatTimeoutError ∧
    (pollChat (zeroTimeout CHAT_POLL_DEFAULTS) "chat-A" 0 []).2 =
      (pollChat (zeroTimeout CHAT_POLL_DEFAULTS) "chat-B" 0 []).2 ∧
    (pollThread (zeroTimeout THREAD_POLL_DEFAULTS) "th-A" 0 []).2 =
      ThreadOutcome.timedOut threadTimeoutError ∧
    (pollThread (zeroTimeout THREAD_POLL_DEFAULTS) "th-A" 0 []).2 =
      (pollThread (zeroTimeout THREAD_POLL_DEFAULTS) "th-B" 0 []).2 ∧
    chatTimeoutError =
      ⟨"Polling timed out waiting for chat completion", "POLL_TIMEOUT", 3⟩ ∧
    threadTimeoutError =
      ⟨"Polling timed out waiting for thread completion", "POLL_TIMEOUT", 3⟩ := by
  norm_num [pollChat, pollChatLoop, pollThread, pollThreadLoop, zeroTimeout,
    CHAT_POLL_DEFAULTS, THREAD_POLL_DEFAULTS, chatTimeoutError, threadTimeoutError]

/-- C5 amended: when the deadline passes without resolution the poll throws a
DevicCliError with the fixed message, code POLL_TIMEOUT and exit code 3 —
distinguishable from transport failures, which surface as a propagated
DevicApiError in a different outcome — but the error carries neither the
resource identifier nor the elapsed time. -/
theorem claim5_timeout_error (o : PollOptions) (uid tid : String) (dl i : ℚ)
    (ls : String) (now : ℚ) (scriptC : List (ℚ × ChatFetch))
    (scriptT : List (ℚ × ThreadFetch)) (h : ¬ now < dl) :
    pollChatLoop o uid dl scriptC i ls now = ([], ChatOutcome.timedOut chatTimeoutError) ∧
    pollThreadLoop o tid dl scriptT i ls now = ([], ThreadOutcome.timedOut threadTimeoutError) ∧
    chatTimeoutError.code = "POLL_TIMEOUT" ∧ chatTimeoutError.exitCode = 3 ∧
    threadTimeoutError.code = "POLL_TIMEOUT" ∧ threadTimeoutError.exitCode = 3 ∧
    (∀ e : DevicApiError, ChatOutcome.timedOut chatTimeoutError ≠ ChatOutcome.fetchFailure e) ∧
    (∀ e : DevicApiError, ThreadOutcome.timedOut threadTimeoutError ≠ ThreadOutcome.fetchFailure e) := by
  refine ⟨pollChatLoop_timeout o uid dl i ls now scriptC h,
    pollThreadLoop_timeout o tid dl i ls now scriptT h,
    rfl, rfl, rfl, rfl, ?_, ?_⟩
  · intro e hcontra
    exact ChatOutcome.noConfusion hcontra
  · intro e hcontra
    exact ThreadOutcome.noConfusion hcontra

/-- C5 amended witness: a run entered past its deadline. -/
theorem claim5_timeout_error_witness :
    (¬ (5 : ℚ) < 3) ∧
    (pollChatLoop CHAT_POLL_DEFAULTS "c1" 3 [] 7 "" 5 =
      ([], ChatOutcome.timedOut chatTimeoutError) ∧
    pollThreadLoop THREAD_POLL_DEFAULTS "t1" 3 [] 7 "" 5 =
      ([], ThreadOutcome.timedOut threadTimeoutError) ∧
    chatTimeoutError.code = "POLL_TIMEOUT" ∧ chatTimeoutError.exitCode = 3 ∧
    threadTimeoutError.code = "POLL_TIMEOUT" ∧ threadTimeoutError.exitCode = 3 ∧
    (∀ e : DevicApiError, ChatOutcome.timedOut chatTimeoutError ≠ ChatOutcome.fetchFailure e) ∧
    (∀ e : DevicApiError, ThreadOutcome.timedOut threadTimeoutError ≠ ThreadOutcome.fetchFailure e)) :=
  ⟨by norm_num,
    claim5_timeout_error CHAT_POLL_DEFAULTS "c1" "t1" 3 7 "" 5 [] [] (by norm_num)⟩

/-- C6: a poll whose wall-clock budget is zero (or negative, i.e. whose
deadline is already in the past at entry) throws the timeout error without
ever invoking fetch: the run has no events at all, in particular zero fetch
invocations — one consistent policy for pollChat and pollThread. -/
theorem claim6_zero_timeout_no_fetch (o : PollOptions) (h : o.timeoutMs ≤ 0) :
    ∀ (uid tid : String) (now : ℚ) (scriptC : List (ℚ × ChatFetch))
      (scriptT : List (ℚ × ThreadFetch)),
    pollChat o uid now scriptC = ([], ChatOutcome.timedOut chatTimeoutError) ∧
    chatFetchCount (pollChat o uid now scriptC).1 = 0 ∧
    pollThread o tid now scriptT = ([], ThreadOutcome.timedOut threadTimeoutError) ∧
    threadFetchCount (pollThread o tid now scriptT).1 = 0 := by
  intro uid tid now scriptC scriptT
  have hnd : ¬ now < now + o.timeoutMs := by
    have hle : now + o.timeoutMs ≤ now := by
      have := add_le_add_left h now
      simpa using this
    exact not_lt.mpr hle
  have hc : pollChat o uid now scriptC = ([], ChatOutcome.timedOut chatTimeoutError) :=
    pollChatLoop_timeout o uid (now + o.timeoutMs) o.initialIntervalMs "" now scriptC hnd
  have ht : pollThread o tid now scriptT = ([], ThreadOutcome.timedOut threadTimeoutError) :=
    pollThreadLoop_timeout o tid (now + o.timeoutMs) o.initialIntervalMs "" now scriptT hnd
  refine ⟨hc, ?_, ht, ?_⟩
  · rw [hc]
    rfl
  · rw [ht]
    rfl

/-- C6 witness: the default chat options with their budget zeroed out. -/
theorem claim6_zero_timeout_no_fetch_witness :
    (zeroTimeout CHAT_POLL_DEFAULTS).timeoutMs ≤ 0 ∧
    (∀ (uid tid : String) (now : ℚ) (scriptC : List (ℚ × ChatFetch))
       (scriptT : List (ℚ × ThreadFetch)),
      pollChat (zeroTimeout CHAT_POLL_DEFAULTS) uid now scriptC =
        ([], ChatOutcome.timedOut chatTimeoutError) ∧
      chatFetchCount (pollChat (zeroTimeout CHAT_POLL_DEFAULTS) uid now scriptC).1 = 0 ∧
      pollThread (zeroTimeout CHAT_POLL_DEFAULTS) tid now scriptT =
        ([], ThreadOutcome.timedOut threadTimeoutError) ∧
      threadFetchCount (pollThread (zeroTimeout CHAT_POLL_DEFAULTS) tid now scriptT).1 = 0) :=
  ⟨by norm_num [zeroTimeout],
    claim6_zero_timeout_no_fetch (zeroTimeout CHAT_POLL_DEFAULTS) (by norm_num [zeroTimeout])⟩

/-- C7: a failing fetch propagates immediately and unmodified — the iteration
ends at once with exactly the thrown DevicApiError, every fetchFailure
outcome is an error present verbatim in the fetch script, and the only error
the poller synthesizes itself is the constant timeout error. -/
theorem claim7_propagate_unmodified :
    (∀ (o : PollOptions) (uid : String) (dl i : ℚ) (ls : String) (now d : ℚ)
       (e : DevicApiError) (rest : List (ℚ × ChatFetch)), now < dl →
      pollChatLoop o uid dl ((d, ChatFetch.err e) :: rest) i ls now =
        ([ChatEvent.fetched (ChatFetch.err e)], ChatOutcome.fetchFailure e)) ∧
    (∀ (o : PollOptions) (uid : String) (dl : ℚ) (script : List (ℚ × ChatFetch))
       (i : ℚ) (ls : String) (now : ℚ) (e : DevicApiError),
      (pollChatLoop o uid dl script i ls now).2 = ChatOutcome.fetchFailure e →
      ∃ d, (d, ChatFetch.err e) ∈ script) ∧
    (∀ (o : PollOptions) (uid : String) (dl : ℚ) (script : List (ℚ × ChatFetch))
       (i : ℚ) (ls : String) (now : ℚ) (err : DevicCliError),
      (pollChatLoop o uid dl script i ls now).2 = ChatOutcome.timedOut err →
      err = chatTimeoutError) ∧
    (∀ (o : PollOptions) (tid : String) (dl i : ℚ) (ls : String) (now d : ℚ)
       (e : DevicApiError) (rest : List (ℚ × ThreadFetch)), now < dl →
      pollThreadLoop o tid dl ((d, ThreadFetch.err e) :: rest) i ls now =
        ([ThreadEvent.fetched (ThreadFetch.err e)], ThreadOutcome.fetchFailure e)) ∧
    (∀ (o : PollOptions) (tid : String) (dl : ℚ) (script : List (ℚ × ThreadFetch))
       (i : ℚ) (ls : String) (now : ℚ) (e : DevicApiError),
      (pollThreadLoop o tid dl script i ls now).2 = ThreadOutcome.fetchFailure e →
      ∃ d, (d, ThreadFetch.err e) ∈ script) ∧
    (∀ (o : PollOptions) (tid : String) (dl : ℚ) (script : List (ℚ × ThreadFetch))
       (i : ℚ) (ls : String) (now : ℚ) (err : DevicCliError),
      (pollThreadLoop o tid dl script i ls now).2 = ThreadOutcome.timedOut err →
      err = threadTimeoutError) :=
  ⟨fun o uid dl i ls now d e rest h => pollChatLoop_err o uid dl i ls now d e rest h,
   fun o uid dl script i ls now e => chat_fetchFailure_mem o uid dl script i ls now e,
   fun o uid dl script i ls now err => chat_timedOut_eq o uid dl script i ls now err,
   fun o tid dl i ls now d e rest h => pollThreadLoop_err o tid dl i ls now d e rest h,
   fun o tid dl script i ls now e => thread_fetchFailure_mem o tid dl script i ls now e,
   fun o tid dl script i ls now err => thread_timedOut_eq o tid dl script i ls now err⟩

/-- C7 witness: a concrete 500-class transport error propagates verbatim. -/
theorem claim7_propagate_unmodified_witness :
    (0 : ℚ) < 1 ∧
    pollChatLoop CHAT_POLL_DEFAULTS "c1" 1
        [((0 : ℚ), ChatFetch.err ⟨500, "internal error", none⟩)] 5 "" 0 =
      ([ChatEvent.fetched (ChatFetch.err ⟨500, "internal error", none⟩)],
       ChatOutcome.fetchFailure ⟨500, "internal error", none⟩) :=
  ⟨by norm_num,
    claim7_propagate_unmodified.1 CHAT_POLL_DEFAULTS "c1" 1 5 "" 0 0
      ⟨500, "internal error", none⟩ [] (by norm_num)⟩

/-- C8: the first fetch happens with zero prior delay — every run's event
list is empty or begins with a fetch, never a sleep — and sleeps happen
exactly once per Continue-classified observation (none before the first
fetch, none after a terminal or early-return one), for any
initialIntervalMs. -/
theorem claim8_first_fetch_zero_delay :
    (∀ (o : PollOptions) (uid : String) (now : ℚ) (script : List (ℚ × ChatFetch)),
      ((pollChat o uid now script).1 = [] ∨
        ∃ f tl, (pollChat o uid now script).1 = ChatEvent.fetched f :: tl) ∧
      (chatSleeps (pollChat o uid now script).1).length =
        (chatObserved (pollChat o uid now script).1).countP
          (fun s => decide (chatClassify s = Tier.Continue))) ∧
    (∀ (o : PollOptions) (tid : String) (now : ℚ) (script : List (ℚ × ThreadFetch)),
      ((pollThread o tid now script).1 = [] ∨
        ∃ f tl, (pollThread o tid now script).1 = ThreadEvent.fetched f :: tl) ∧
      (threadSleeps (pollThread o tid now script).1).length =
        (threadObserved (pollThread o tid now script).1).countP
          (fun s => decide (threadClassify s = Tier.Continue))) := by
  constructor
  · intro o uid now script
    exact ⟨chat_events_head o uid (now + o.timeoutMs) script o.initialIntervalMs "" now,
      chatSleeps_length_eq o uid (now + o.timeoutMs) script o.initialIntervalMs "" now⟩
  · intro o tid now script
    exact ⟨thread_events_head o tid (now + o.timeoutMs) script o.initialIntervalMs "" now,
      threadSleeps_length_eq o tid (now + o.timeoutMs) script o.initialIntervalMs "" now⟩

/-- C9: a thread status notification whose snapshot carries a (nonempty)
task list reports the auxiliary progress pair (completed count, total
count) — the rendered line appends exactly "(tasks: done/total)" — and the
scenario with tasks [completed, not-completed] and state processing emits
the payload whose progress pair is (1, 2) alongside the status line. -/
theorem claim9_task_progress :
    (∀ (tid st : String) (ts : List (Option String × Bool)), ts ≠ [] →
      threadStatusLineHuman tid st (some ts) =
        threadStatusLineHuman tid st none ++ " (tasks: " ++
          toString (threadTaskProgress ts).1 ++ "/" ++
          toString (threadTaskProgress ts).2 ++ ")") ∧
    threadTaskProgress [(some "x", true), (some "y", false)] = (1, 2) ∧
    (pollThread THREAD_POLL_DEFAULTS "t1" 0
        [((0 : ℚ), ThreadFetch.ok
          (threadSnap "processing" (some [⟨some "x", true⟩, ⟨some "y", false⟩])))]).1 =
      [ThreadEvent.fetched (ThreadFetch.ok
          (threadSnap "processing" (some [⟨some "x", true⟩, ⟨some "y", false⟩]))),
       ThreadEvent.notified "t1" "processing" (some [(some "x", true), (some "y", false)]),
       ThreadEvent.slept 2000] ∧
    threadStatusLineHuman "t1" "processing" (some [(some "x", true), (some "y", false)]) =
      "[..] Thread `t1` — **processing** (tasks: 1/2)" := by
  refine ⟨?_, by decide, ?_, by decide⟩
  · intro tid st ts h
    have hl : 0 < ts.length := List.length_pos.mpr h
    simp [threadStatusLineHuman, threadTaskProgress, hl]
  · norm_num +decide [pollThread, pollThreadLoop, THREAD_POLL_DEFAULTS, THREAD_TERMINAL,
      threadSnap]

/-- C9 witness: the suffix clause at the scenario's two-element task list. -/
theorem claim9_task_progress_witness :
    ([((some "x" : Option String), true), (some "y", false)] ≠
      ([] : List (Option String × Bool))) ∧
    threadStatusLineHuman "t1" "processing" (some [(some "x", true), (some "y", false)]) =
      threadStatusLineHuman "t1" "processing" none ++ " (tasks: " ++
        toString (threadTaskProgress [(some "x", true), (some "y", false)]).1 ++ "/" ++
        toString (threadTaskProgress [(some "x", true), (some "y", false)]).2 ++ ")" :=
  ⟨by decide,
    claim9_task_progress.1 "t1" "processing" [(some "x", true), (some "y", false)]
      (by decide)⟩

/-- C10: the last-seen status is initialized to the empty string, so the
first observation is notified exactly when its status is nonempty; a run
whose only observed status is the empty string emits no notification at all,
for pollChat and pollThread alike. -/
theorem claim10_empty_status_never_notified :
    (∀ (o : PollOptions) (uid : String) (now d : ℚ) (r : RealtimeChatHistory)
       (rest : List (ℚ × ChatFetch)), 0 < o.timeoutMs →
      ∃ tl, (pollChat o uid now ((d, ChatFetch.ok r) :: rest)).1 =
        ChatEvent.fetched (ChatFetch.ok r) ::
          ((if r.status = "" then [] else [ChatEvent.notified uid r.status]) ++ tl)) ∧
    (∀ (o : PollOptions) (tid : String) (now d : ℚ) (r : AgentThreadDto)
       (rest : List (ℚ × ThreadFetch)), 0 < o.timeoutMs →
      ∃ tl, (pollThread o tid now ((d, ThreadFetch.ok r) :: rest)).1 =
        ThreadEvent.fetched (ThreadFetch.ok r) ::
          ((if r.state = "" then []
            else [ThreadEvent.notified tid r.state
              (r.tasks.map (fun ts => ts.map (fun t => (t.title, t.completed))))]) ++ tl)) ∧
    chatNotifs (pollChat CHAT_POLL_DEFAULTS "c1" 0
      [((0 : ℚ), ChatFetch.ok (chatSnap ""))]).1 = [] ∧
    threadNotifs (pollThread THREAD_POLL_DEFAULTS "t1" 0
      [((0 : ℚ), ThreadFetch.ok (threadSnap "" none))]).1 = [] := by
  refine ⟨?_, ?_, ?_, ?_⟩
  · intro o uid now d r rest h
    have hlt : now < now + o.timeoutMs := lt_add_of_pos_right now h
    by_cases hc : chatClassify r.status = Tier.Continue
    · refine ⟨ChatEvent.slept o.initialIntervalMs ::
        (pollChatLoop o uid (now + o.timeoutMs) rest (nextInterval o o.initialIntervalMs)
          (if r.status = "" then "" else r.status) (now + d + o.initialIntervalMs)).1, ?_⟩
      have hstep := pollChatLoop_continue o uid (now + o.timeoutMs) o.initialIntervalMs ""
        now d r rest hlt hc
      rw [show (pollChat o uid now ((d, ChatFetch.ok r) :: rest)).1 =
          (pollChatLoop o uid (now + o.timeoutMs) ((d, ChatFetch.ok r) :: rest)
            o.initialIntervalMs "" now).1 from rfl, hstep]
    · refine ⟨[], ?_⟩
      have hstep := pollChatLoop_resolved o uid (now + o.timeoutMs) o.initialIntervalMs ""
        now d r rest hlt hc
      rw [show (pollChat o uid now ((d, ChatFetch.ok r) :: rest)).1 =
          (pollChatLoop o uid (now + o.timeoutMs) ((d, ChatFetch.ok r) :: rest)
            o.initialIntervalMs "" now).1 from rfl, hstep]
      simp
  · intro o tid now d r rest h
    have hlt : now < now + o.timeoutMs := lt_add_of_pos_right now h
    by_cases hc : threadClassify r.state = Tier.Continue
    · refine ⟨ThreadEvent.slept o.initialIntervalMs ::
        (pollThreadLoop o tid (now + o.timeoutMs) rest (nextInterval o o.initialIntervalMs)
          (if r.state = "" then "" else r.state) (now + d + o.initialIntervalMs)).1, ?_⟩
      have hstep := pollThreadLoop_continue o tid (now + o.timeoutMs) o.initialIntervalMs ""
        now d r rest hlt hc
      rw [show (pollThread o tid now ((d, ThreadFetch.ok r) :: rest)).1 =
          (pollThreadLoop o tid (now + o.timeoutMs) ((d, ThreadFetch.ok r) :: rest)
            o.initialIntervalMs "" now).1 from rfl, hstep]
    · refine ⟨[], ?_⟩
      have hstep := pollThreadLoop_resolved o tid (now + o.timeoutMs) o.initialIntervalMs ""
        now d r rest hlt hc
      rw [show (pollThread o tid now ((d, ThreadFetch.ok r) :: rest)).1 =
          (pollThreadLoop o tid (now + o.timeoutMs) ((d, ThreadFetch.ok r) :: rest)
            o.initialIntervalMs "" now).1 from rfl, hstep]
      simp
  · norm_num +decide [pollChat, pollChatLoop, CHAT_POLL_DEFAULTS, chatNotifs,
      CHAT_TERMINAL, chatSnap, min_def]
  · norm_num +decide [pollThread, pollThreadLoop, THREAD_POLL_DEFAULTS, threadNotifs,
      THREAD_TERMINAL, threadSnap, min_def]

/-- C10 witness: a first observation with a nonempty status, under a
positive budget. -/
theorem claim10_empty_status_never_notified_witness :
    (0 : ℚ) < CHAT_POLL_DEFAULTS.timeoutMs ∧
    ∃ tl, (pollChat CHAT_POLL_DEFAULTS "c1" 0
        [((0 : ℚ), ChatFetch.ok (chatSnap "processing"))]).1 =
      ChatEvent.fetched (ChatFetch.ok (chatSnap "processing")) ::
        ((if (chatSnap "processing").status = "" then []
          else [ChatEvent.notified "c1" (chatSnap "processing").status]) ++ tl) :=
  ⟨by norm_num [CHAT_POLL_DEFAULTS],
    claim10_empty_status_never_notified.1 CHAT_POLL_DEFAULTS "c1" 0 0
      (chatSnap "processing") [] (by norm_num [CHAT_POLL_DEFAULTS])⟩

end DevicCli
